import Mathlib

/-!
Shallow embedding of the frame delay buffering engine of `src/content.js`
(Frame-Sync).  The engine captures frames of a video element into a fixed
capacity ring buffer and renders, at display cadence, the buffered frame whose
capture timestamp is nearest to `now - frameDelayMs`.

Modelling conventions:
* Timestamps (`performance.now` style) are natural numbers; the playback
  target `now - frameDelayMs` is computed in `Int`, as JS numbers may go
  negative there.
* `captureTs = 0` is the "never written" sentinel, exactly as in the source.
* Pixel contents of canvases are not tracked; the observable state of a
  buffer slot is its dimensions and its capture timestamp.
* Console output is modelled by a list of `LogEvent`s returned alongside the
  new state.
* Operations that contain a JS expression that can throw (`undefined`
  property access, `ctx.drawImage`) return `Except String`; a `try`/`catch`
  in the source is modelled by matching on the inner `Except` and recovering.
  `drawImage` failure is abstracted by a boolean oracle `renderOk`.
-/

/-- A console message: `console.warn` or `console.error`. -/
inductive LogEvent where
  | warn : String → LogEvent
  | error : String → LogEvent
deriving Repr, DecidableEq

/-- The externally owned video element, as read by the engine:
`videoWidth`, `videoHeight` and `paused`. -/
structure Video where
  videoWidth : Nat
  videoHeight : Nat
  paused : Bool
deriving Repr, DecidableEq, Inhabited

/-- One ring buffer slot (`class BufferFrame`): a backing canvas of the given
dimensions plus the capture timestamp (0 = never written). -/
structure BufferFrame where
  width : Nat
  height : Nat
  captureTs : Nat
deriving Repr, DecidableEq, Inhabited

/-- `new BufferFrame(video)`: `captureTs = 0`, then `Resize()` sizes the
backing canvas to the video. -/
def BufferFrame.init (video : Video) : BufferFrame :=
  { width := video.videoWidth, height := video.videoHeight, captureTs := 0 }

/-- `BufferFrame.CaptureFrame(now)`: draw the video into the slot and stamp
`captureTs = now`, but only if the video has valid dimensions. -/
def BufferFrame.CaptureFrame (bf : BufferFrame) (video : Video) (now : Nat) : BufferFrame :=
  if 0 < video.videoWidth ∧ 0 < video.videoHeight then
    { bf with captureTs := now }
  else
    bf

/-- `BufferFrame.Resize()`: reallocate the backing canvas to the video's
current dimensions (the capture timestamp is untouched). -/
def BufferFrame.Resize (bf : BufferFrame) (video : Video) : BufferFrame :=
  { bf with width := video.videoWidth, height := video.videoHeight }

/-- The per-session engine state (`class FrameSync`).  The overlay canvas is
modelled by its dimensions when present; the `ResizeObserver` by a flag. -/
structure FrameSync where
  maxBuffer : Nat
  buffer : List BufferFrame
  frameDelayMs : Nat
  active : Bool
  frameCount : Nat
  lastDrawnFrameIndex : Int
  canvas : Option (Nat × Nat)
  hasResizeObserver : Bool
deriving Repr, DecidableEq

/-- Capture timestamp stored in slot `j` of a buffer. -/
def tsAt (l : List BufferFrame) (j : Nat) : Nat :=
  (l.getD j default).captureTs

/-- `|captureTs(slot j) - targetTs|`, the selection metric of the playback
loop. -/
def diffAt (l : List BufferFrame) (targetTs : Int) (j : Nat) : Nat :=
  ((tsAt l j : Int) - targetTs).natAbs

/-- `SetMaxBuffer(maxBuffer)`: reject (log an error, change nothing) below 2;
otherwise reinitialize the ring buffer with fresh empty slots and reset
`frameCount` and `lastDrawnFrameIndex`. -/
def FrameSync.SetMaxBuffer (fs : FrameSync) (video : Video) (maxBuffer : Nat) :
    FrameSync × List LogEvent :=
  if maxBuffer < 2 then
    (fs, [LogEvent.error "maxBuffer should be at least 2"])
  else
    ({ fs with
        maxBuffer := maxBuffer
        buffer := List.replicate maxBuffer (BufferFrame.init video)
        frameCount := 0
        lastDrawnFrameIndex := -1 }, [])

/-- `new FrameSync(video, maxBuffer, frameDelayMs)`.  When the video already
carries a session (`video.frameSyncObj`), the constructor returns that very
session with only its delay updated; otherwise it builds a fresh session and
initializes its buffer through `SetMaxBuffer`.  (The page level registration
`video.frameSyncObj = this` is modelled in `updateSyncForVideo`.) -/
def frameSyncConstruct (existing : Option FrameSync) (video : Video)
    (maxBuffer frameDelayMs : Nat) : FrameSync × List LogEvent :=
  match existing with
  | some fs => ({ fs with frameDelayMs := frameDelayMs }, [])
  | none =>
      let fs0 : FrameSync :=
        { maxBuffer := 0
          buffer := []
          frameDelayMs := frameDelayMs
          active := false
          frameCount := 0
          lastDrawnFrameIndex := -1
          canvas := none
          hasResizeObserver := false }
      FrameSync.SetMaxBuffer fs0 video maxBuffer

/-- The `for (i = 0; i < maxBuffer; i++) buffer[i].Resize()` loop of
`FrameSync.Resize`. -/
def resizeFrames (video : Video) (buffer : List BufferFrame) (maxBuffer : Nat) :
    List BufferFrame :=
  (List.range maxBuffer).foldl
    (fun b i => b.set i ((b.getD i default).Resize video)) buffer

/-- `FrameSync.Resize`: no-op without an overlay canvas or with a zero-sized
video; otherwise re-sync the canvas to the video geometry and resize every
buffer slot. -/
def FrameSync.Resize (fs : FrameSync) (video : Video) : FrameSync :=
  match fs.canvas with
  | none => fs
  | some _ =>
      if video.videoWidth = 0 ∨ video.videoHeight = 0 then fs
      else
        { fs with
            canvas := some (video.videoWidth, video.videoHeight)
            buffer := resizeFrames video fs.buffer fs.maxBuffer }

/-- `_createCanvasOverlay`: no-op when the canvas already exists; otherwise
create the overlay (a fresh canvas has default size 300x150), `Resize()`, and
attach the `ResizeObserver`. -/
def FrameSync.createCanvasOverlay (fs : FrameSync) (video : Video) : FrameSync :=
  match fs.canvas with
  | some _ => fs
  | none =>
      FrameSync.Resize
        { fs with canvas := some (300, 150), hasResizeObserver := true } video

/-- `Activate()`: idempotent; sets `active`, creates the overlay, and starts
the two self-rescheduling loops (the loops themselves are the step functions
`_captureFrame` / `_drawFrame` below). -/
def FrameSync.Activate (fs : FrameSync) (video : Video) : FrameSync :=
  if fs.active = true then fs
  else FrameSync.createCanvasOverlay { fs with active := true } video

/-- `Deactivate()`, restricted to the session object itself: clear `active`,
remove the overlay canvas, disconnect the `ResizeObserver`.  The deletion of
the `video.frameSyncObj` registry link is modelled at page level
(`PageVideo.Deactivate`). -/
def FrameSync.Deactivate (fs : FrameSync) : FrameSync :=
  { fs with active := false, canvas := none, hasResizeObserver := false }

/-- One step of the selection loop of `_findBestFrameToShow`: skip empty
slots, otherwise keep the candidate with the strictly smaller difference
(so equal differences keep the earlier slot). -/
def selectStep (targetTs : Int) (i : Nat) (bf : BufferFrame)
    (acc : Option (Nat × Nat)) : Option (Nat × Nat) :=
  if bf.captureTs = 0 then acc
  else
    let diff := ((bf.captureTs : Int) - targetTs).natAbs
    match acc with
    | none => some (i, diff)
    | some (bi, bd) => if diff < bd then some (i, diff) else some (bi, bd)

/-- The scan of `_findBestFrameToShow`, carrying the running best
`(index, diff)` (`none` plays the role of `smallestDiff = Infinity`). -/
def findBestAux (targetTs : Int) :
    List BufferFrame → Nat → Option (Nat × Nat) → Option (Nat × Nat)
  | [], _, acc => acc
  | bf :: rest, i, acc =>
      findBestAux targetTs rest (i + 1) (selectStep targetTs i bf acc)

/-- `_findBestFrameToShow(targetTs)`: index of the non-empty slot nearest to
`targetTs`, ties to the lowest index, `-1` when every slot is empty. -/
def FrameSync.findBestFrameToShow (fs : FrameSync) (targetTs : Int) : Int :=
  match findBestAux targetTs fs.buffer 0 none with
  | none => -1
  | some (i, _) => (i : Int)

/-- The overflow diagnostic emitted by `_captureFrame`. -/
def overflowMsg : String :=
  "FrameSync: Buffer overflow detected. Video might stutter. Consider increasing buffer or checking performance."

/-- `_captureFrame(now)` (one cycle of the capture loop).  Skips when
inactive, paused or the document is hidden.  Otherwise it reads
`buffer[frameCount % maxBuffer]` — in JS an out-of-range / `NaN` index yields
`undefined` and the subsequent property access throws, which the `.error`
branches model — possibly warns about overflow, captures into the slot and
unconditionally increments `frameCount`. -/
def FrameSync.captureFrame (fs : FrameSync) (video : Video) (docHidden : Bool)
    (now : Nat) : Except String (FrameSync × List LogEvent) :=
  if fs.active = false ∨ video.paused = true ∨ docHidden = true then
    .ok (fs, [])
  else if fs.maxBuffer = 0 then
    .error "TypeError: buffer[NaN] is undefined"
  else
    let nextFrameIndex := fs.frameCount % fs.maxBuffer
    match fs.buffer[nextFrameIndex]? with
    | none => .error "TypeError: buffer slot is undefined"
    | some slot =>
        let logs :=
          if slot.captureTs ≠ 0 ∧
              (now : Int) - (slot.captureTs : Int) < (fs.frameDelayMs : Int) then
            [LogEvent.warn overflowMsg]
          else []
        .ok ({ fs with
                buffer := fs.buffer.set nextFrameIndex (slot.CaptureFrame video now)
                frameCount := fs.frameCount + 1 }, logs)

/-- `ctx.drawImage(frame, ...)` in the playback loop, abstracted: the oracle
`renderOk` says whether the draw succeeds or throws. -/
def drawImage (renderOk : Bool) : Except String Unit :=
  if renderOk then .ok () else .error "InvalidStateError"

/-- The `console.error` message of the playback catch block. -/
def drawErrorMsg : String := "FrameSync: Error drawing frame."

/-- `_drawFrame(now)` (one cycle of the playback loop).  Skips when inactive
or paused; otherwise selects the best frame for `now - frameDelayMs`, skips
when nothing is selected or the selection equals `lastDrawnFrameIndex` or the
frame has a zero dimension; renders otherwise, catching a render failure
(logged, frame skipped, `lastDrawnFrameIndex` not updated). -/
def FrameSync.drawFrame (fs : FrameSync) (video : Video) (now : Nat)
    (renderOk : Bool) : Except String (FrameSync × List LogEvent) :=
  if fs.active = false ∨ video.paused = true then
    .ok (fs, [])
  else
    let targetTs : Int := (now : Int) - (fs.frameDelayMs : Int)
    let bestFrameIndex := fs.findBestFrameToShow targetTs
    if bestFrameIndex ≠ -1 ∧ bestFrameIndex ≠ fs.lastDrawnFrameIndex then
      match fs.buffer[bestFrameIndex.toNat]? with
      | none => .error "TypeError: buffer slot is undefined"
      | some frameToDraw =>
          if 0 < frameToDraw.width ∧ 0 < frameToDraw.height then
            match drawImage renderOk with
            | .ok _ => .ok ({ fs with lastDrawnFrameIndex := bestFrameIndex }, [])
            | .error _ => .ok (fs, [LogEvent.error drawErrorMsg])
          else .ok (fs, [])
    else .ok (fs, [])

/-- A video element together with its `frameSyncObj` expando property (the
source → session registry link). -/
structure PageVideo where
  video : Video
  frameSyncObj : Option FrameSync
deriving Repr, DecidableEq

/-- `Deactivate()` as seen from the page: `delete video.frameSyncObj` drops
the registry link (the mutated session object itself, `FrameSync.Deactivate`,
is no longer reachable from the page). -/
def PageVideo.Deactivate (pv : PageVideo) : PageVideo :=
  { pv with frameSyncObj := none }

/-- The body of `updateSyncForVideos` for a single video: with a positive
delay and not paused, either construct (capacity 60) and `Activate` a fresh
session, or update the delay of the existing one in place; otherwise
deactivate and unlink any existing session. -/
def updateSyncForVideo (currentFrameDelay : Nat) (isPaused : Bool)
    (pv : PageVideo) : PageVideo :=
  if 0 < currentFrameDelay ∧ isPaused = false then
    match pv.frameSyncObj with
    | none =>
        let fs := (frameSyncConstruct none pv.video 60 currentFrameDelay).1
        { pv with frameSyncObj := some (fs.Activate pv.video) }
    | some fs =>
        { pv with frameSyncObj := some { fs with frameDelayMs := currentFrameDelay } }
  else
    match pv.frameSyncObj with
    | some _ => pv.Deactivate
    | none => pv

/-- `k` consecutive capture-loop cycles at timestamps `ts 0, ts 1, …`,
propagating any JS exception. -/
def captureN (video : Video) (docHidden : Bool) (ts : Nat → Nat) :
    Nat → FrameSync → Except String FrameSync
  | 0, fs => .ok fs
  | k + 1, fs =>
      match captureN video docHidden ts k fs with
      | .ok s => (FrameSync.captureFrame s video docHidden (ts k)).map Prod.fst
      | .error e => .error e

/-- Structural well-formedness of a session: the invariant every session
reachable through the engine's entry points satisfies. -/
def FrameSync.WF (fs : FrameSync) : Prop :=
  2 ≤ fs.maxBuffer ∧ fs.buffer.length = fs.maxBuffer

/-! ### Concrete scenario states -/

/-- A video with valid dimensions, playing. -/
def demoVideo : Video := { videoWidth := 640, videoHeight := 360, paused := false }

/-- A video reporting zero width (capture must not store into the slot). -/
def zeroVideo : Video := { videoWidth := 0, videoHeight := 360, paused := false }

/-- Activated session with capacity 4 and delay 100 (the selection scenario of
the specification). -/
def demoSession : FrameSync :=
  ((frameSyncConstruct none demoVideo 4 100).1).Activate demoVideo

/-- Activated session with capacity 2 and delay 10 (the overflow scenario of
the specification). -/
def smallSession : FrameSync :=
  ((frameSyncConstruct none demoVideo 2 10).1).Activate demoVideo

/-- `smallSession` after one capture cycle at `t = 0`. -/
def smallSession1 : FrameSync :=
  match FrameSync.captureFrame smallSession demoVideo false 0 with
  | .ok (s, _) => s
  | .error _ => smallSession

/-- Activated session with capacity 3 and delay 50. -/
def c4session : FrameSync :=
  ((frameSyncConstruct none demoVideo 3 50).1).Activate demoVideo

/-- The capture timestamps of the selection scenario. -/
def c1ts : Nat → Nat := fun k => [0, 30, 60, 90, 120].getD k 0

/-- `smallSession` after captures at `t = 40` and `t = 100`. -/
def c7session : FrameSync :=
  match captureN demoVideo false (fun k => [40, 100].getD k 0) 2 smallSession with
  | .ok s => s
  | .error _ => smallSession

/-! ### List access helpers -/

lemma getElemOpt_eq_getD (l : List BufferFrame) (i : Nat) (h : i < l.length) :
    l[i]? = some (l.getD i default) := by
  rw [List.getD_eq_getElem?_getD, List.getElem?_eq_getElem h]
  simp [List.getElem?_eq_getElem h]

lemma set_getD_self (l : List BufferFrame) (i : Nat) (h : i < l.length) :
    l.set i (l.getD i default) = l := by
  rw [List.getD_eq_getElem?_getD, List.getElem?_eq_getElem h]
  apply List.ext_getElem
  · simp
  · intro n h1 h2
    rcases eq_or_ne i n with rfl | hne
    · simp
    · rw [List.getElem_set_ne hne]

lemma tsAt_set_self (l : List BufferFrame) (i : Nat) (bf : BufferFrame)
    (h : i < l.length) : tsAt (l.set i bf) i = bf.captureTs := by
  unfold tsAt
  rw [List.getD_eq_getElem?_getD, List.getElem?_set_self h]
  rfl

lemma tsAt_set_ne (l : List BufferFrame) (i j : Nat) (bf : BufferFrame)
    (h : i ≠ j) : tsAt (l.set i bf) j = tsAt l j := by
  unfold tsAt
  rw [List.getD_eq_getElem?_getD, List.getElem?_set_ne h, ← List.getD_eq_getElem?_getD]

lemma tsAt_append_lt (l : List BufferFrame) (bf : BufferFrame) (j : Nat)
    (h : j < l.length) : tsAt (l ++ [bf]) j = tsAt l j := by
  unfold tsAt
  rw [List.getD_append _ _ _ _ h]

lemma tsAt_append_len (l : List BufferFrame) (bf : BufferFrame) :
    tsAt (l ++ [bf]) l.length = bf.captureTs := by
  unfold tsAt
  rw [List.getD_append_right _ _ _ _ (le_refl _)]
  simp

lemma diffAt_append_lt (l : List BufferFrame) (bf : BufferFrame) (ts : Int)
    (j : Nat) (h : j < l.length) : diffAt (l ++ [bf]) ts j = diffAt l ts j := by
  unfold diffAt
  rw [tsAt_append_lt _ _ _ h]

lemma diffAt_append_len (l : List BufferFrame) (bf : BufferFrame) (ts : Int) :
    diffAt (l ++ [bf]) ts l.length = ((bf.captureTs : Int) - ts).natAbs := by
  unfold diffAt
  rw [tsAt_append_len]

lemma tsAt_replicate_init (n j : Nat) (v : Video) (h : j < n) :
    tsAt (List.replicate n (BufferFrame.init v)) j = 0 := by
  unfold tsAt
  rw [List.getD_eq_getElem?_getD, List.getElem?_replicate]
  simp [h, BufferFrame.init]

/-! ### Characterization of the frame selection scan -/

lemma findBestAux_append (ts : Int) (l : List BufferFrame) (bf : BufferFrame) :
    ∀ (k : Nat) (acc : Option (Nat × Nat)),
      findBestAux ts (l ++ [bf]) k acc
        = selectStep ts (k + l.length) bf (findBestAux ts l k acc) := by
  induction l with
  | nil => intro k acc; simp [findBestAux]
  | cons x rest ih =>
      intro k acc
      show findBestAux ts (rest ++ [bf]) (k + 1) (selectStep ts k x acc)
            = selectStep ts (k + (rest.length + 1)) bf
                (findBestAux ts rest (k + 1) (selectStep ts k x acc))
      rw [ih]
      congr 1
      omega

lemma findBestAux_spec (ts : Int) (l : List BufferFrame) :
    (findBestAux ts l 0 none = none ↔ ∀ j, j < l.length → tsAt l j = 0) ∧
    (∀ i d, findBestAux ts l 0 none = some (i, d) →
      i < l.length ∧ tsAt l i ≠ 0 ∧ d = diffAt l ts i ∧
      (∀ j, j < l.length → tsAt l j ≠ 0 → d ≤ diffAt l ts j) ∧
      (∀ j, j < i → tsAt l j ≠ 0 → d < diffAt l ts j)) := by
  induction l using List.reverseRecOn with
  | nil =>
      constructor
      · simp [findBestAux]
      · intro i d h
        simp [findBestAux] at h
  | append_singleton l bf ih =>
      obtain ⟨ih1, ih2⟩ := ih
      have happ : findBestAux ts (l ++ [bf]) 0 none
          = selectStep ts l.length bf (findBestAux ts l 0 none) := by
        rw [findBestAux_append]
        norm_num
      have hlen : (l ++ [bf]).length = l.length + 1 := by simp
      by_cases hbf : bf.captureTs = 0
      · have hsel : findBestAux ts (l ++ [bf]) 0 none = findBestAux ts l 0 none := by
          rw [happ]; simp [selectStep, hbf]
        constructor
        · rw [hsel, ih1]
          constructor
          · intro hall j hj
            rw [hlen] at hj
            rcases Nat.lt_succ_iff_lt_or_eq.mp hj with hlt | rfl
            · rw [tsAt_append_lt _ _ _ hlt]; exact hall j hlt
            · rw [tsAt_append_len]; exact hbf
          · intro hall j hj
            have := hall j (by omega)
            rwa [tsAt_append_lt _ _ _ hj] at this
        · intro i d h
          rw [hsel] at h
          obtain ⟨hi, hne, hd, hmin, htie⟩ := ih2 i d h
          refine ⟨by omega, ?_, ?_, ?_, ?_⟩
          · rw [tsAt_append_lt _ _ _ hi]; exact hne
          · rw [diffAt_append_lt _ _ _ _ hi]; exact hd
          · intro j hj hjne
            rw [hlen] at hj
            rcases Nat.lt_succ_iff_lt_or_eq.mp hj with hlt | rfl
            · rw [diffAt_append_lt _ _ _ _ hlt]
              rw [tsAt_append_lt _ _ _ hlt] at hjne
              exact hmin j hlt hjne
            · rw [tsAt_append_len] at hjne
              exact absurd hbf hjne
          · intro j hj hjne
            have hjl : j < l.length := lt_trans hj hi
            rw [diffAt_append_lt _ _ _ _ hjl]
            rw [tsAt_append_lt _ _ _ hjl] at hjne
            exact htie j hj hjne
      · cases hr : findBestAux ts l 0 none with
        | none =>
            have hall : ∀ j, j < l.length → tsAt l j = 0 := ih1.mp hr
            have hsel : findBestAux ts (l ++ [bf]) 0 none
                = some (l.length, ((bf.captureTs : Int) - ts).natAbs) := by
              rw [happ, hr]; simp [selectStep, hbf]
            constructor
            · rw [hsel]
              constructor
              · intro h; simp at h
              · intro hall2
                exfalso
                have := hall2 l.length (by omega)
                rw [tsAt_append_len] at this
                exact hbf this
            · intro i d h
              rw [hsel] at h
              simp only [Option.some.injEq, Prod.mk.injEq] at h
              obtain ⟨rfl, rfl⟩ := h
              refine ⟨by omega, ?_, ?_, ?_, ?_⟩
              · rw [tsAt_append_len]; exact hbf
              · rw [diffAt_append_len]
              · intro j hj hjne
                rw [hlen] at hj
                rcases Nat.lt_succ_iff_lt_or_eq.mp hj with hlt | rfl
                · rw [tsAt_append_lt _ _ _ hlt] at hjne
                  exact absurd (hall j hlt) hjne
                · rw [diffAt_append_len]
              · intro j hj hjne
                rw [tsAt_append_lt _ _ _ hj] at hjne
                exact absurd (hall j hj) hjne
        | some p =>
            obtain ⟨bi, bd⟩ := p
            obtain ⟨hbi, hbne, hbd, hbmin, hbtie⟩ := ih2 bi bd hr
            by_cases hcmp : ((bf.captureTs : Int) - ts).natAbs < bd
            · have hsel : findBestAux ts (l ++ [bf]) 0 none
                  = some (l.length, ((bf.captureTs : Int) - ts).natAbs) := by
                rw [happ, hr]; simp [selectStep, hbf, hcmp]
              constructor
              · rw [hsel]
                constructor
                · intro h; simp at h
                · intro hall2
                  exfalso
                  have := hall2 l.length (by omega)
                  rw [tsAt_append_len] at this
                  exact hbf this
              · intro i d h
                rw [hsel] at h
                simp only [Option.some.injEq, Prod.mk.injEq] at h
                obtain ⟨rfl, rfl⟩ := h
                refine ⟨by omega, ?_, ?_, ?_, ?_⟩
                · rw [tsAt_append_len]; exact hbf
                · rw [diffAt_append_len]
                · intro j hj hjne
                  rw [hlen] at hj
                  rcases Nat.lt_succ_iff_lt_or_eq.mp hj with hlt | rfl
                  · rw [diffAt_append_lt _ _ _ _ hlt]
                    rw [tsAt_append_lt _ _ _ hlt] at hjne
                    exact le_of_lt (lt_of_lt_of_le hcmp (hbd ▸ hbmin j hlt hjne))
                  · rw [diffAt_append_len]
                · intro j hj hjne
                  rw [diffAt_append_lt _ _ _ _ hj]
                  rw [tsAt_append_lt _ _ _ hj] at hjne
                  exact lt_of_lt_of_le hcmp (hbd ▸ hbmin j hj hjne)
            · have hsel : findBestAux ts (l ++ [bf]) 0 none = some (bi, bd) := by
                rw [happ, hr]; simp [selectStep, hbf, hcmp]
              constructor
              · rw [hsel]
                constructor
                · intro h; simp at h
                · intro hall2
                  exfalso
                  have := hall2 l.length (by omega)
                  rw [tsAt_append_len] at this
                  exact hbf this
              · intro i d h
                rw [hsel] at h
                simp only [Option.some.injEq, Prod.mk.injEq] at h
                obtain ⟨rfl, rfl⟩ := h
                refine ⟨by omega, ?_, ?_, ?_, ?_⟩
                · rw [tsAt_append_lt _ _ _ hbi]; exact hbne
                · rw [diffAt_append_lt _ _ _ _ hbi]; exact hbd
                · intro j hj hjne
                  rw [hlen] at hj
                  rcases Nat.lt_succ_iff_lt_or_eq.mp hj with hlt | rfl
                  · rw [diffAt_append_lt _ _ _ _ hlt]
                    rw [tsAt_append_lt _ _ _ hlt] at hjne
                    exact hbmin j hlt hjne
                  · rw [diffAt_append_len]
                    omega
                · intro j hj hjne
                  have hjl : j < l.length := lt_trans hj hbi
                  rw [diffAt_append_lt _ _ _ _ hjl]
                  rw [tsAt_append_lt _ _ _ hjl] at hjne
                  exact hbtie j hj hjne

lemma findBestFrameToShow_spec (fs : FrameSync) (ts : Int) :
    (fs.findBestFrameToShow ts = -1 ↔ ∀ j, j < fs.buffer.length → tsAt fs.buffer j = 0) ∧
    (fs.findBestFrameToShow ts ≠ -1 →
      ∃ i : Nat, fs.findBestFrameToShow ts = (i : Int) ∧ i < fs.buffer.length ∧
        tsAt fs.buffer i ≠ 0 ∧
        (∀ j, j < fs.buffer.length → tsAt fs.buffer j ≠ 0 →
          diffAt fs.buffer ts i ≤ diffAt fs.buffer ts j) ∧
        (∀ j, j < i → tsAt fs.buffer j ≠ 0 →
          diffAt fs.buffer ts i < diffAt fs.buffer ts j)) := by
  obtain ⟨h1, h2⟩ := findBestAux_spec ts fs.buffer
  cases hr : findBestAux ts fs.buffer 0 none with
  | none =>
      have hfb : fs.findBestFrameToShow ts = -1 := by
        unfold FrameSync.findBestFrameToShow
        rw [hr]
      rw [hfb]
      exact ⟨iff_of_true rfl (h1.mp hr), fun h => absurd rfl h⟩
  | some p =>
      obtain ⟨i, d⟩ := p
      have hfb : fs.findBestFrameToShow ts = (i : Int) := by
        unfold FrameSync.findBestFrameToShow
        rw [hr]
      obtain ⟨hi, hne, hd, hmin, htie⟩ := h2 i d hr
      rw [hfb]
      constructor
      · constructor
        · intro h
          have hnn : (0 : Int) ≤ (i : Int) := Int.natCast_nonneg i
          omega
        · intro hall
          exact absurd (hall i hi) hne
      · intro _
        refine ⟨i, rfl, hi, hne, ?_, ?_⟩
        · intro j hj hjne
          exact hd ▸ hmin j hj hjne
        · intro j hj hjne
          exact hd ▸ htie j hj hjne

lemma findBestFrameToShow_eq_nat (fs : FrameSync) (ts : Int) (i : Nat)
    (h : fs.findBestFrameToShow ts = (i : Int)) :
    i < fs.buffer.length ∧ tsAt fs.buffer i ≠ 0 := by
  have hne : fs.findBestFrameToShow ts ≠ -1 := by
    rw [h]
    have hnn : (0 : Int) ≤ (i : Int) := Int.natCast_nonneg i
    omega
  obtain ⟨j, hj, hlt, hjne, -, -⟩ := (findBestFrameToShow_spec fs ts).2 hne
  have : i = j := by
    rw [h] at hj
    exact_mod_cast hj
  subst this
  exact ⟨hlt, hjne⟩

/-! ### Capture loop lemmas -/

lemma captureFrame_step (fs : FrameSync) (video : Video) (now : Nat)
    (hact : fs.active = true) (hp : video.paused = false)
    (hmb : 0 < fs.maxBuffer) (hlen : fs.frameCount % fs.maxBuffer < fs.buffer.length) :
    FrameSync.captureFrame fs video false now
      = .ok ({ fs with
          buffer := fs.buffer.set (fs.frameCount % fs.maxBuffer)
            ((fs.buffer.getD (fs.frameCount % fs.maxBuffer) default).CaptureFrame video now)
          frameCount := fs.frameCount + 1 },
        if tsAt fs.buffer (fs.frameCount % fs.maxBuffer) ≠ 0 ∧
            (now : Int) - (tsAt fs.buffer (fs.frameCount % fs.maxBuffer) : Int)
              < (fs.frameDelayMs : Int)
          then [LogEvent.warn overflowMsg] else []) := by
  unfold FrameSync.captureFrame
  rw [if_neg (by simp [hact, hp]), if_neg (by omega)]
  dsimp only
  rw [getElemOpt_eq_getD _ _ hlen]
  rfl

lemma captureN_invariant (video : Video) (ts : Nat → Nat) (C : Nat) (fs : FrameSync)
    (hC : 2 ≤ C) (hw : 0 < video.videoWidth) (hh : 0 < video.videoHeight)
    (hp : video.paused = false) (hmono : StrictMono ts) (hpos : 0 < ts 0)
    (hact : fs.active = true) (hmb : fs.maxBuffer = C) (hlen : fs.buffer.length = C)
    (hfc : fs.frameCount = 0) (hempty : ∀ j, j < C → tsAt fs.buffer j = 0) :
    ∀ k, 1 ≤ k →
      ∃ s, captureN video false ts k fs = .ok s ∧
        s.active = true ∧ s.maxBuffer = C ∧ s.buffer.length = C ∧
        s.frameCount = k ∧
        tsAt s.buffer ((k - 1) % C) = ts (k - 1) ∧
        (∀ j, j < C → tsAt s.buffer j ≤ ts (k - 1)) ∧
        (∀ j, j < C → j ≠ (k - 1) % C → tsAt s.buffer j < ts (k - 1)) := by
  intro k
  induction k with
  | zero => omega
  | succ n ihn =>
      intro _
      rcases Nat.eq_zero_or_pos n with rfl | hn
      · have hidx : fs.frameCount % fs.maxBuffer = 0 := by
          rw [hfc]; exact Nat.zero_mod _
        have hstep := captureFrame_step fs video (ts 0) hact hp (by omega)
          (by rw [hidx]; omega)
        rw [hidx] at hstep
        have hrun : captureN video false ts (0 + 1) fs
            = .ok { fs with
                buffer := fs.buffer.set 0 ((fs.buffer.getD 0 default).CaptureFrame video (ts 0))
                frameCount := fs.frameCount + 1 } := by
          simp only [captureN]
          rw [hstep]
          rfl
        have hbf : (fs.buffer.getD 0 default).CaptureFrame video (ts 0)
            = { fs.buffer.getD 0 default with captureTs := ts 0 } := by
          unfold BufferFrame.CaptureFrame
          rw [if_pos ⟨hw, hh⟩]
        refine ⟨_, hrun, hact, hmb, by simp [hlen], by rw [hfc], ?_, ?_, ?_⟩
        · simp only [Nat.sub_self, Nat.zero_mod]
          rw [hbf, tsAt_set_self _ _ _ (by omega)]
        · intro j hj
          simp only [Nat.sub_self]
          rcases eq_or_ne j 0 with rfl | hne
          · rw [hbf, tsAt_set_self _ _ _ (by omega)]
          · rw [tsAt_set_ne _ _ _ _ (Ne.symm hne), hempty j hj]
            omega
        · intro j hj hne
          simp only [Nat.sub_self, Nat.zero_mod] at hne ⊢
          rw [tsAt_set_ne _ _ _ _ (Ne.symm hne), hempty j hj]
          exact hpos
      · obtain ⟨s, hs, hsact, hsmb, hslen, hsfc, hslot, hle, hlt⟩ := ihn hn
        have hidx : s.frameCount % s.maxBuffer = n % C := by rw [hsfc, hsmb]
        have hstep := captureFrame_step s video (ts n) hsact hp (by omega)
          (by rw [hidx, hslen]; exact Nat.mod_lt _ (by omega))
        rw [hidx] at hstep
        have hbf : (s.buffer.getD (n % C) default).CaptureFrame video (ts n)
            = { s.buffer.getD (n % C) default with captureTs := ts n } := by
          unfold BufferFrame.CaptureFrame
          rw [if_pos ⟨hw, hh⟩]
        have hmodlt : n % C < C := Nat.mod_lt _ (by omega)
        have hprev : ts (n - 1) ≤ ts n := by
          apply hmono.monotone
          omega
        have hrun : captureN video false ts (n + 1) fs
            = .ok { s with
                buffer := s.buffer.set (n % C)
                  ((s.buffer.getD (n % C) default).CaptureFrame video (ts n))
                frameCount := s.frameCount + 1 } := by
          simp only [captureN]
          rw [hs]
          dsimp only
          rw [hstep]
          rfl
        refine ⟨_, hrun, hsact, hsmb, by simp [hslen], by rw [hsfc], ?_, ?_, ?_⟩
        · simp only [Nat.add_sub_cancel]
          rw [hbf, tsAt_set_self _ _ _ (by omega)]
        · intro j hj
          simp only [Nat.add_sub_cancel]
          rcases eq_or_ne j (n % C) with rfl | hne
          · rw [hbf, tsAt_set_self _ _ _ (by omega)]
          · rw [tsAt_set_ne _ _ _ _ (Ne.symm hne)]
            exact le_trans (hle j hj) hprev
        · intro j hj hne
          simp only [Nat.add_sub_cancel] at hne ⊢
          rw [tsAt_set_ne _ _ _ _ (Ne.symm hne)]
          have hlt1 : ts (n - 1) < ts n := by
            apply hmono
            omega
          exact lt_of_le_of_lt (hle j hj) hlt1

/-! ### Playback loop lemmas -/

lemma drawFrame_renders (fs : FrameSync) (video : Video) (now : Nat)
    (renderOk : Bool) (i : Nat)
    (hact : fs.active = true) (hp : video.paused = false)
    (hbest : fs.findBestFrameToShow ((now : Int) - (fs.frameDelayMs : Int)) = (i : Int))
    (hlast : (i : Int) ≠ fs.lastDrawnFrameIndex)
    (hw : 0 < (fs.buffer.getD i default).width)
    (hh : 0 < (fs.buffer.getD i default).height) :
    FrameSync.drawFrame fs video now renderOk
      = if renderOk then .ok ({ fs with lastDrawnFrameIndex := (i : Int) }, [])
        else .ok (fs, [LogEvent.error drawErrorMsg]) := by
  obtain ⟨hilen, -⟩ := findBestFrameToShow_eq_nat fs _ i hbest
  unfold FrameSync.drawFrame
  rw [if_neg (by simp [hact, hp])]
  dsimp only
  rw [hbest]
  have hne1 : (i : Int) ≠ -1 := by
    have := Int.natCast_nonneg i
    omega
  rw [if_pos ⟨hne1, hlast⟩, Int.toNat_natCast, getElemOpt_eq_getD _ _ hilen]
  dsimp only
  rw [if_pos ⟨hw, hh⟩]
  cases renderOk <;> rfl

lemma drawFrame_isOk (fs : FrameSync) (video : Video) (now : Nat) (renderOk : Bool) :
    (FrameSync.drawFrame fs video now renderOk).isOk = true := by
  unfold FrameSync.drawFrame
  by_cases hg : fs.active = false ∨ video.paused = true
  · rw [if_pos hg]; rfl
  · rw [if_neg hg]
    dsimp only
    by_cases hc : fs.findBestFrameToShow ((now : Int) - (fs.frameDelayMs : Int)) ≠ -1 ∧
        fs.findBestFrameToShow ((now : Int) - (fs.frameDelayMs : Int)) ≠ fs.lastDrawnFrameIndex
    · rw [if_pos hc]
      obtain ⟨i, hi, hlt, -, -, -⟩ := (findBestFrameToShow_spec fs _).2 hc.1
      rw [hi, Int.toNat_natCast, getElemOpt_eq_getD _ _ hlt]
      dsimp only
      by_cases hd : 0 < (fs.buffer.getD i default).width ∧
          0 < (fs.buffer.getD i default).height
      · rw [if_pos hd]
        cases renderOk <;> rfl
      · rw [if_neg hd]; rfl
    · rw [if_neg hc]; rfl

lemma drawFrame_WF (fs : FrameSync) (video : Video) (now : Nat) (renderOk : Bool)
    (hwf : fs.WF) (fs2 : FrameSync) (logs : List LogEvent)
    (h : FrameSync.drawFrame fs video now renderOk = .ok (fs2, logs)) : fs2.WF := by
  obtain ⟨h2, hlen⟩ := hwf
  unfold FrameSync.drawFrame at h
  by_cases hg : fs.active = false ∨ video.paused = true
  · rw [if_pos hg] at h
    simp only [Except.ok.injEq, Prod.mk.injEq] at h
    obtain ⟨rfl, -⟩ := h
    exact ⟨h2, hlen⟩
  · rw [if_neg hg] at h
    dsimp only at h
    by_cases hc : fs.findBestFrameToShow ((now : Int) - (fs.frameDelayMs : Int)) ≠ -1 ∧
        fs.findBestFrameToShow ((now : Int) - (fs.frameDelayMs : Int)) ≠ fs.lastDrawnFrameIndex
    · rw [if_pos hc] at h
      obtain ⟨i, hi, hlt, -, -, -⟩ := (findBestFrameToShow_spec fs _).2 hc.1
      rw [hi, Int.toNat_natCast, getElemOpt_eq_getD _ _ hlt] at h
      dsimp only at h
      by_cases hd : 0 < (fs.buffer.getD i default).width ∧
          0 < (fs.buffer.getD i default).height
      · rw [if_pos hd] at h
        cases renderOk with
        | true =>
            rw [show drawImage true = Except.ok () from rfl] at h
            dsimp only at h
            simp only [Except.ok.injEq, Prod.mk.injEq] at h
            obtain ⟨rfl, -⟩ := h
            exact ⟨h2, hlen⟩
        | false =>
            rw [show drawImage false = Except.error "InvalidStateError" from rfl] at h
            dsimp only at h
            simp only [Except.ok.injEq, Prod.mk.injEq] at h
            obtain ⟨rfl, -⟩ := h
            exact ⟨h2, hlen⟩
      · rw [if_neg hd] at h
        simp only [Except.ok.injEq, Prod.mk.injEq] at h
        obtain ⟨rfl, -⟩ := h
        exact ⟨h2, hlen⟩
    · rw [if_neg hc] at h
      simp only [Except.ok.injEq, Prod.mk.injEq] at h
      obtain ⟨rfl, -⟩ := h
      exact ⟨h2, hlen⟩

lemma captureFrame_isOk (fs : FrameSync) (video : Video) (docHidden : Bool)
    (now : Nat) (hwf : fs.WF) :
    (FrameSync.captureFrame fs video docHidden now).isOk = true := by
  obtain ⟨h2, hlen⟩ := hwf
  unfold FrameSync.captureFrame
  by_cases hg : fs.active = false ∨ video.paused = true ∨ docHidden = true
  · rw [if_pos hg]; rfl
  · rw [if_neg hg, if_neg (by omega)]
    dsimp only
    rw [getElemOpt_eq_getD _ _ (by rw [hlen]; exact Nat.mod_lt _ (by omega))]
    rfl

lemma captureFrame_WF (fs : FrameSync) (video : Video) (docHidden : Bool)
    (now : Nat) (hwf : fs.WF) (fs2 : FrameSync) (logs : List LogEvent)
    (h : FrameSync.captureFrame fs video docHidden now = .ok (fs2, logs)) : fs2.WF := by
  obtain ⟨h2, hlen⟩ := hwf
  unfold FrameSync.captureFrame at h
  by_cases hg : fs.active = false ∨ video.paused = true ∨ docHidden = true
  · rw [if_pos hg] at h
    simp only [Except.ok.injEq, Prod.mk.injEq] at h
    obtain ⟨rfl, -⟩ := h
    exact ⟨h2, hlen⟩
  · rw [if_neg hg, if_neg (by omega)] at h
    dsimp only at h
    rw [getElemOpt_eq_getD _ _ (by rw [hlen]; exact Nat.mod_lt _ (by omega))] at h
    dsimp only at h
    simp only [Except.ok.injEq, Prod.mk.injEq] at h
    obtain ⟨rfl, -⟩ := h
    exact ⟨h2, by simp [hlen]⟩

/-! ### Lifecycle field effects -/

lemma Resize_fields (fs : FrameSync) (video : Video) :
    (fs.Resize video).frameCount = fs.frameCount ∧
    (fs.Resize video).lastDrawnFrameIndex = fs.lastDrawnFrameIndex ∧
    (fs.Resize video).maxBuffer = fs.maxBuffer ∧
    (fs.Resize video).frameDelayMs = fs.frameDelayMs ∧
    (fs.Resize video).active = fs.active := by
  unfold FrameSync.Resize
  cases hcv : fs.canvas with
  | none => exact ⟨rfl, rfl, rfl, rfl, rfl⟩
  | some c =>
      by_cases hdim : video.videoWidth = 0 ∨ video.videoHeight = 0
      · rw [if_pos hdim]
        exact ⟨rfl, rfl, rfl, rfl, rfl⟩
      · rw [if_neg hdim]
        exact ⟨rfl, rfl, rfl, rfl, rfl⟩

lemma createCanvasOverlay_fields (fs : FrameSync) (video : Video) :
    (fs.createCanvasOverlay video).frameCount = fs.frameCount ∧
    (fs.createCanvasOverlay video).lastDrawnFrameIndex = fs.lastDrawnFrameIndex ∧
    (fs.createCanvasOverlay video).maxBuffer = fs.maxBuffer ∧
    (fs.createCanvasOverlay video).frameDelayMs = fs.frameDelayMs ∧
    (fs.createCanvasOverlay video).active = fs.active := by
  unfold FrameSync.createCanvasOverlay
  cases hcv : fs.canvas with
  | some c => exact ⟨rfl, rfl, rfl, rfl, rfl⟩
  | none =>
      obtain ⟨h1, h2, h3, h4, h5⟩ :=
        Resize_fields { fs with canvas := some (300, 150), hasResizeObserver := true } video
      exact ⟨h1, h2, h3, h4, h5⟩

lemma Activate_fields (fs : FrameSync) (video : Video) :
    (fs.Activate video).frameCount = fs.frameCount ∧
    (fs.Activate video).lastDrawnFrameIndex = fs.lastDrawnFrameIndex ∧
    (fs.Activate video).maxBuffer = fs.maxBuffer ∧
    (fs.Activate video).frameDelayMs = fs.frameDelayMs ∧
    (fs.Activate video).active = true := by
  unfold FrameSync.Activate
  split
  · next hactive => exact ⟨rfl, rfl, rfl, rfl, hactive⟩
  · obtain ⟨h1, h2, h3, h4, h5⟩ :=
      createCanvasOverlay_fields { fs with active := true } video
    exact ⟨h1, h2, h3, h4, h5⟩

lemma SetMaxBuffer_reject (fs : FrameSync) (video : Video) (n : Nat) (h : n < 2) :
    FrameSync.SetMaxBuffer fs video n
      = (fs, [LogEvent.error "maxBuffer should be at least 2"]) := by
  unfold FrameSync.SetMaxBuffer
  rw [if_pos h]

lemma SetMaxBuffer_accept (fs : FrameSync) (video : Video) (n : Nat) (h : 2 ≤ n) :
    FrameSync.SetMaxBuffer fs video n
      = ({ fs with
            maxBuffer := n
            buffer := List.replicate n (BufferFrame.init video)
            frameCount := 0
            lastDrawnFrameIndex := -1 }, []) := by
  unfold FrameSync.SetMaxBuffer
  rw [if_neg (by omega)]

lemma captureFrame_zeroDims (fs : FrameSync) (video : Video) (now : Nat)
    (hz : video.videoWidth = 0 ∨ video.videoHeight = 0)
    (hact : fs.active = true) (hp : video.paused = false) (hwf : fs.WF) :
    ∃ logs, FrameSync.captureFrame fs video false now
      = .ok ({ fs with frameCount := fs.frameCount + 1 }, logs) := by
  obtain ⟨h2, hlen⟩ := hwf
  have hidxlt : fs.frameCount % fs.maxBuffer < fs.buffer.length := by
    rw [hlen]; exact Nat.mod_lt _ (by omega)
  have hstep := captureFrame_step fs video now hact hp (by omega) hidxlt
  have hcf : (fs.buffer.getD (fs.frameCount % fs.maxBuffer) default).CaptureFrame video now
      = fs.buffer.getD (fs.frameCount % fs.maxBuffer) default := by
    unfold BufferFrame.CaptureFrame
    rw [if_neg (by omega)]
  rw [hcf, set_getD_self _ _ hidxlt] at hstep
  exact ⟨_, hstep⟩

lemma frameSyncConstruct_none_fields (video : Video) (mb d : Nat) (h : 2 ≤ mb) :
    (frameSyncConstruct none video mb d).1.frameCount = 0 ∧
    (frameSyncConstruct none video mb d).1.lastDrawnFrameIndex = -1 ∧
    (frameSyncConstruct none video mb d).1.maxBuffer = mb ∧
    (frameSyncConstruct none video mb d).1.buffer.length = mb ∧
    (frameSyncConstruct none video mb d).1.frameDelayMs = d ∧
    (frameSyncConstruct none video mb d).1.active = false ∧
    (frameSyncConstruct none video mb d).2 = [] := by
  unfold frameSyncConstruct
  dsimp only
  rw [SetMaxBuffer_accept _ _ _ h]
  exact ⟨rfl, rfl, rfl, by simp, rfl, rfl, rfl⟩

/-! ### Claim theorems -/

/-- Claim C1: frame selection returns the index of a non-empty slot
(`captureTs ≠ 0`) minimizing `|captureTs − targetTs|`, resolving exact ties
to the lowest slot index, and returns `-1` exactly when every slot is empty;
in the scenario with captures at `{0, 30, 60, 90, 120}` (capacity 4) and
target `50`, it returns slot 2, which holds timestamp 60. -/
theorem claim1_frame_selection (fs : FrameSync) (targetTs : Int) :
    ((∀ j, j < fs.buffer.length → tsAt fs.buffer j = 0) →
      fs.findBestFrameToShow targetTs = -1) ∧
    ((∃ j, j < fs.buffer.length ∧ tsAt fs.buffer j ≠ 0) →
      fs.findBestFrameToShow targetTs ≠ -1) ∧
    (fs.findBestFrameToShow targetTs ≠ -1 →
      ∃ i : Nat, fs.findBestFrameToShow targetTs = (i : Int) ∧ i < fs.buffer.length ∧
        tsAt fs.buffer i ≠ 0 ∧
        (∀ j, j < fs.buffer.length → tsAt fs.buffer j ≠ 0 →
          diffAt fs.buffer targetTs i ≤ diffAt fs.buffer targetTs j) ∧
        (∀ j, j < i → tsAt fs.buffer j ≠ 0 →
          diffAt fs.buffer targetTs i < diffAt fs.buffer targetTs j)) ∧
    (captureN demoVideo false c1ts 5 demoSession).map
        (fun s => (s.findBestFrameToShow 50, tsAt s.buffer 2)) = .ok (2, 60) := by
  obtain ⟨h1, h2⟩ := findBestFrameToShow_spec fs targetTs
  refine ⟨h1.mpr, ?_, h2, by rfl⟩
  rintro ⟨j, hj, hne⟩ heq
  exact hne (h1.mp heq j hj)

/-- Witness for claim C1 at concrete inputs: an all-empty two-slot buffer
(`smallSession`, no captures yet) selects `-1` for target 50. -/
theorem claim1_frame_selection_witness :
    FrameSync.findBestFrameToShow smallSession 50 = -1 :=
  (claim1_frame_selection smallSession 50).1 (by decide)

/-- Claim C2 counterexample: with capacity 2, `delayMs = 10` and captures at
`t = 0` and `t = 5`, the second enqueue emits NO overflow diagnostic (the
claim asserts that it does): slot 1 was still empty, so the warning guard
`captureTs ≠ 0` fails.  It does overwrite slot 1 (`captureTs = 5`) and
increments `frameCount` to 2 without error. -/
theorem claim2_counterexample :
    FrameSync.captureFrame smallSession demoVideo false 0
        = .ok (smallSession1, []) ∧
    (FrameSync.captureFrame smallSession1 demoVideo false 5).map
        (fun r => (r.2, r.1.frameCount, tsAt r.1.buffer 1)) = .ok ([], 2, 5) := by
  constructor
  · rfl
  · rfl

/-- Claim C2 (amended): with capacity 2 and captures at `t = 0` and `t = 5`
under `delayMs = 10`, the second enqueue does NOT emit the overflow
diagnostic (the slot it overwrites is still empty, and the warning fires only
when overwriting a slot whose `captureTs ≠ 0` is younger than the delay); it
still overwrites slot 1 and increments `frameCount` to 2 without raising an
error. -/
theorem claim2_amended :
    ∃ s2 : FrameSync,
      FrameSync.captureFrame smallSession1 demoVideo false 5 = .ok (s2, []) ∧
      s2.frameCount = 2 ∧ tsAt s2.buffer 1 = 5 ∧ s2.maxBuffer = 2 ∧
      smallSession1.frameCount = 1 :=
  ⟨_, rfl, rfl, rfl, rfl, rfl⟩

/-- Claim C3 counterexample: a session that has performed one capture has
`frameCount = 1`; calling `Deactivate()` and then `Activate()` on that same
session object leaves `frameCount = 1`, not 0 as the claim requires (the
buffer reset only happens because reactivation goes through a freshly
constructed session). -/
theorem claim3_counterexample :
    smallSession1.frameCount = 1 ∧
    ((smallSession1.Deactivate).Activate demoVideo).frameCount = 1 := by
  constructor
  · rfl
  · rfl

/-- Claim C3 (amended): `Deactivate()` removes the source → session registry
link, so re-enabling through the controller path (`updateSyncForVideos` with a
positive delay, not paused) constructs and activates a FRESH session with
`frameCount = 0` and `lastDrawnFrameIndex = -1`; calling `Activate()` directly
on the old session object, by contrast, resets neither `frameCount` nor
`lastDrawnFrameIndex`. -/
theorem claim3_amended (pv : PageVideo) (d : Nat) (v : Video) (fs : FrameSync)
    (hd : 0 < d) :
    (pv.Deactivate).frameSyncObj = none ∧
    (updateSyncForVideo d false (pv.Deactivate)).frameSyncObj.map
        (fun s => (s.frameCount, s.lastDrawnFrameIndex, s.active)) = some (0, -1, true) ∧
    ((fs.Deactivate).Activate v).frameCount = fs.frameCount ∧
    ((fs.Deactivate).Activate v).lastDrawnFrameIndex = fs.lastDrawnFrameIndex := by
  refine ⟨rfl, ?_, ?_, ?_⟩
  · have hupd : (updateSyncForVideo d false (pv.Deactivate)).frameSyncObj
        = some (((frameSyncConstruct none pv.video 60 d).1).Activate pv.video) := by
      unfold updateSyncForVideo
      rw [if_pos ⟨hd, rfl⟩]
      rfl
    rw [hupd]
    obtain ⟨hc1, hc2, -, -, -, -, -⟩ := frameSyncConstruct_none_fields pv.video 60 d (by omega)
    obtain ⟨hf1, hf2, -, -, hf5⟩ :=
      Activate_fields (frameSyncConstruct none pv.video 60 d).1 pv.video
    show some ((((frameSyncConstruct none pv.video 60 d).1).Activate pv.video).frameCount,
        (((frameSyncConstruct none pv.video 60 d).1).Activate pv.video).lastDrawnFrameIndex,
        (((frameSyncConstruct none pv.video 60 d).1).Activate pv.video).active)
      = some (0, -1, true)
    rw [hf1, hf2, hf5, hc1, hc2]
  · exact (Activate_fields fs.Deactivate v).1
  · exact (Activate_fields fs.Deactivate v).2.1

/-- Witness for claim C3 (amended) at concrete inputs: deactivating the page
link of `smallSession` and re-running the controller at delay 10 yields a
fresh session with `frameCount = 0`, `lastDrawnFrameIndex = -1`; a direct
`Activate` on the old object `smallSession1` keeps its `frameCount`. -/
theorem claim3_amended_witness :
    (updateSyncForVideo 10 false
        (PageVideo.Deactivate { video := demoVideo, frameSyncObj := some smallSession })).frameSyncObj.map
        (fun s => (s.frameCount, s.lastDrawnFrameIndex, s.active)) = some (0, -1, true) ∧
    ((smallSession1.Deactivate).Activate demoVideo).frameCount = smallSession1.frameCount :=
  ⟨(claim3_amended { video := demoVideo, frameSyncObj := some smallSession }
      10 demoVideo smallSession1 (by omega)).2.1,
   (claim3_amended { video := demoVideo, frameSyncObj := some smallSession }
      10 demoVideo smallSession1 (by omega)).2.2.1⟩

/-- Claim C4: for capacity `C ≥ 2` and `N ≥ 1` captures (active session,
playing, visible video with valid dimensions, strictly increasing positive
timestamps) starting from an empty buffer, `frameCount` ends at `N` and the
slot holding the most recent snapshot — the one with the strictly greatest
`captureTs` — is slot `(N − 1) mod C`. -/
theorem claim4_ring_write_position (video : Video) (ts : Nat → Nat) (C N : Nat)
    (fs : FrameSync) (hC : 2 ≤ C) (hN : 1 ≤ N)
    (hw : 0 < video.videoWidth) (hh : 0 < video.videoHeight)
    (hp : video.paused = false) (hmono : StrictMono ts) (hpos : 0 < ts 0)
    (hact : fs.active = true) (hmb : fs.maxBuffer = C) (hlen : fs.buffer.length = C)
    (hfc : fs.frameCount = 0) (hempty : ∀ j, j < C → tsAt fs.buffer j = 0) :
    ∃ s, captureN video false ts N fs = .ok s ∧
      s.frameCount = N ∧ s.maxBuffer = C ∧
      tsAt s.buffer ((N - 1) % C) = ts (N - 1) ∧
      (∀ j, j < C → j ≠ (N - 1) % C → tsAt s.buffer j < ts (N - 1)) := by
  obtain ⟨s, hs, -, hsmb, -, hsfc, hslot, -, hlt⟩ :=
    captureN_invariant video ts C fs hC hw hh hp hmono hpos hact hmb hlen hfc hempty N hN
  exact ⟨s, hs, hsfc, hsmb, hslot, hlt⟩

/-- Witness for claim C4 at concrete inputs: capacity 3, 4 captures at
timestamps `10, 20, 30, 40`; the final `frameCount` is 4, slot `3 mod 3 = 0`
holds timestamp 40, and slots 1 and 2 hold strictly older timestamps. -/
theorem claim4_ring_write_position_witness :
    (captureN demoVideo false (fun k => 10 * (k + 1)) 4 c4session).map
        FrameSync.frameCount = .ok 4 ∧
    (captureN demoVideo false (fun k => 10 * (k + 1)) 4 c4session).map
        (fun s => tsAt s.buffer 0) = .ok 40 ∧
    (captureN demoVideo false (fun k => 10 * (k + 1)) 4 c4session).map
        (fun s => decide (tsAt s.buffer 1 < 40)) = .ok true := by
  obtain ⟨s, hs, hfc, hmb, hslot, hlt⟩ :=
    claim4_ring_write_position demoVideo (fun k => 10 * (k + 1)) 3 4 c4session
      (by omega) (by omega) (by decide) (by decide) (by decide)
      (by intro a b h; show 10 * (a + 1) < 10 * (b + 1); omega) (by decide)
      (by decide) (by decide) (by decide) (by decide) (by decide)
  have h0 : tsAt s.buffer 0 = 40 := by
    have := hslot
    norm_num at this
    exact this
  have h1 : tsAt s.buffer 1 < 40 := by
    have := hlt 1 (by omega) (by norm_num)
    norm_num at this
    exact this
  rw [hs]
  refine ⟨?_, ?_, ?_⟩
  · show Except.ok s.frameCount = Except.ok 4
    rw [hfc]
  · show Except.ok (tsAt s.buffer 0) = Except.ok 40
    rw [h0]
  · show Except.ok (decide (tsAt s.buffer 1 < 40)) = Except.ok true
    rw [decide_eq_true h1]

/-- Claim C5: `SetMaxBuffer(n)` with `n < 2` logs an error and leaves the
whole prior configuration unchanged; with `n ≥ 2` it fully reinitializes the
ring buffer: capacity `n`, every slot empty (`captureTs = 0`), `frameCount = 0`
and `lastDrawnFrameIndex = -1`, while delay, active flag and canvas are kept. -/
theorem claim5_set_capacity (fs : FrameSync) (video : Video) (n : Nat) :
    (n < 2 → FrameSync.SetMaxBuffer fs video n
        = (fs, [LogEvent.error "maxBuffer should be at least 2"])) ∧
    (2 ≤ n →
      (FrameSync.SetMaxBuffer fs video n).2 = [] ∧
      (FrameSync.SetMaxBuffer fs video n).1.maxBuffer = n ∧
      (FrameSync.SetMaxBuffer fs video n).1.buffer.length = n ∧
      (∀ j, j < n → tsAt (FrameSync.SetMaxBuffer fs video n).1.buffer j = 0) ∧
      (FrameSync.SetMaxBuffer fs video n).1.frameCount = 0 ∧
      (FrameSync.SetMaxBuffer fs video n).1.lastDrawnFrameIndex = -1 ∧
      (FrameSync.SetMaxBuffer fs video n).1.frameDelayMs = fs.frameDelayMs ∧
      (FrameSync.SetMaxBuffer fs video n).1.active = fs.active ∧
      (FrameSync.SetMaxBuffer fs video n).1.canvas = fs.canvas) := by
  constructor
  · exact SetMaxBuffer_reject fs video n
  · intro h
    rw [SetMaxBuffer_accept fs video n h]
    refine ⟨rfl, rfl, by simp, ?_, rfl, rfl, rfl, rfl, rfl⟩
    intro j hj
    exact tsAt_replicate_init n j video hj

/-- Witness for claim C5 at concrete inputs: on `smallSession`,
`SetMaxBuffer 1` is rejected leaving the session untouched, while
`SetMaxBuffer 5` reinitializes to capacity 5 with empty slot 3 and
`frameCount = 0`. -/
theorem claim5_set_capacity_witness :
    FrameSync.SetMaxBuffer smallSession demoVideo 1
        = (smallSession, [LogEvent.error "maxBuffer should be at least 2"]) ∧
    (FrameSync.SetMaxBuffer smallSession demoVideo 5).1.maxBuffer = 5 ∧
    tsAt (FrameSync.SetMaxBuffer smallSession demoVideo 5).1.buffer 3 = 0 ∧
    (FrameSync.SetMaxBuffer smallSession demoVideo 5).1.frameCount = 0 :=
  ⟨(claim5_set_capacity smallSession demoVideo 1).1 (by omega),
   ((claim5_set_capacity smallSession demoVideo 5).2 (by omega)).2.1,
   ((claim5_set_capacity smallSession demoVideo 5).2 (by omega)).2.2.2.1 3 (by omega),
   ((claim5_set_capacity smallSession demoVideo 5).2 (by omega)).2.2.2.2.1⟩

/-- Claim C6: at most one live session exists per source: constructing a
`FrameSync` for a video that already carries one returns that very session
with only its delay updated (all other fields, including the buffer and
counters, are those of the existing session), and the controller path keeps
the registry pointing at that same updated session. -/
theorem claim6_single_session (fs : FrameSync) (v : Video) (mb d dly : Nat)
    (pv : PageVideo) :
    frameSyncConstruct (some fs) v mb d = ({ fs with frameDelayMs := d }, []) ∧
    (pv.frameSyncObj = some fs → 0 < dly →
      (updateSyncForVideo dly false pv).frameSyncObj
        = some { fs with frameDelayMs := dly }) := by
  constructor
  · rfl
  · intro hpv hdly
    unfold updateSyncForVideo
    rw [if_pos ⟨hdly, rfl⟩, hpv]

/-- Witness for claim C6 at concrete inputs: constructing a second session
for the video carrying `smallSession` returns `smallSession` with only the
delay changed to 25. -/
theorem claim6_single_session_witness :
    frameSyncConstruct (some smallSession) demoVideo 60 25
        = ({ smallSession with frameDelayMs := 25 }, []) ∧
    (updateSyncForVideo 25 false
        { video := demoVideo, frameSyncObj := some smallSession }).frameSyncObj
      = some { smallSession with frameDelayMs := 25 } :=
  ⟨(claim6_single_session smallSession demoVideo 60 25 25
      { video := demoVideo, frameSyncObj := some smallSession }).1,
   (claim6_single_session smallSession demoVideo 60 25 25
      { video := demoVideo, frameSyncObj := some smallSession }).2 rfl (by omega)⟩

/-- Claim C7: a runtime delay change through the controller path updates the
session's `frameDelayMs` in place and nothing else — buffer (hence every
slot's `captureTs`), `frameCount` and `lastDrawnFrameIndex` are untouched —
and the next playback cycle selects against the new target `now − delay`,
rendering the slot chosen for that target. -/
theorem claim7_delay_update (pv : PageVideo) (fs : FrameSync) (d : Nat)
    (video : Video) (now : Nat) (i : Nat)
    (hpv : pv.frameSyncObj = some fs) (hd : 0 < d) :
    (updateSyncForVideo d false pv).frameSyncObj = some { fs with frameDelayMs := d } ∧
    ({ fs with frameDelayMs := d } : FrameSync).buffer = fs.buffer ∧
    ({ fs with frameDelayMs := d } : FrameSync).frameCount = fs.frameCount ∧
    ({ fs with frameDelayMs := d } : FrameSync).lastDrawnFrameIndex
        = fs.lastDrawnFrameIndex ∧
    (∀ j, j < fs.buffer.length →
      tsAt ({ fs with frameDelayMs := d } : FrameSync).buffer j = tsAt fs.buffer j) ∧
    (fs.active = true → video.paused = false →
      FrameSync.findBestFrameToShow { fs with frameDelayMs := d }
          ((now : Int) - (d : Int)) = (i : Int) →
      (i : Int) ≠ fs.lastDrawnFrameIndex →
      0 < (fs.buffer.getD i default).width →
      0 < (fs.buffer.getD i default).height →
      FrameSync.drawFrame { fs with frameDelayMs := d } video now true
        = .ok ({ fs with frameDelayMs := d, lastDrawnFrameIndex := (i : Int) }, [])) := by
  refine ⟨?_, rfl, rfl, rfl, fun j hj => rfl, ?_⟩
  · unfold updateSyncForVideo
    rw [if_pos ⟨hd, rfl⟩, hpv]
  · intro hact hp hbest hlast hw hh
    have h := drawFrame_renders { fs with frameDelayMs := d } video now true i
      hact hp hbest hlast hw hh
    simpa using h

/-- Witness for claim C7 at concrete inputs: `c7session` holds snapshots at
timestamps 40 (slot 0) and 100 (slot 1); after the controller changes the
delay to 60, the playback cycle at `now = 150` targets 90 and draws slot 1. -/
theorem claim7_delay_update_witness :
    (updateSyncForVideo 60 false
        { video := demoVideo, frameSyncObj := some c7session }).frameSyncObj
      = some { c7session with frameDelayMs := 60 } ∧
    FrameSync.drawFrame { c7session with frameDelayMs := 60 } demoVideo 150 true
      = .ok ({ c7session with frameDelayMs := 60, lastDrawnFrameIndex := (1 : Int) }, []) := by
  obtain ⟨h1, -, -, -, -, h6⟩ :=
    claim7_delay_update { video := demoVideo, frameSyncObj := some c7session }
      c7session 60 demoVideo 150 1 rfl (by omega)
  exact ⟨h1, h6 (by decide) (by decide) (by decide) (by decide) (by decide) (by decide)⟩

/-- Claim C8: a capture from a source with a zero dimension leaves every
slot untouched (`CaptureFrame` is the identity on the slot, so no
`captureTs` changes), yet the enclosing capture cycle still increments
`frameCount`, advancing the write cursor. -/
theorem claim8_zero_dim_capture (fs : FrameSync) (video : Video) (now : Nat)
    (hz : video.videoWidth = 0 ∨ video.videoHeight = 0)
    (hact : fs.active = true) (hp : video.paused = false) (hwf : fs.WF) :
    (∀ bf : BufferFrame, bf.CaptureFrame video now = bf) ∧
    ∃ logs, FrameSync.captureFrame fs video false now
      = .ok ({ fs with frameCount := fs.frameCount + 1 }, logs) := by
  constructor
  · intro bf
    unfold BufferFrame.CaptureFrame
    rw [if_neg (by omega)]
  · exact captureFrame_zeroDims fs video now hz hact hp hwf

/-- Witness for claim C8 at concrete inputs: capturing into `smallSession`
from `zeroVideo` at `t = 9` leaves both slots empty but moves `frameCount`
from 0 to 1. -/
theorem claim8_zero_dim_capture_witness :
    (FrameSync.captureFrame smallSession zeroVideo false 9).map
        (fun r => (r.1.frameCount, tsAt r.1.buffer 0, tsAt r.1.buffer 1))
      = .ok (1, 0, 0) := by
  obtain ⟨-, logs, h⟩ :=
    claim8_zero_dim_capture smallSession zeroVideo 9 (Or.inl rfl) (by decide)
      (by decide) ⟨by decide, by decide⟩
  rw [h]
  rfl

/-- Claim C9: no engine operation propagates an error for well-formed
(reachable) sessions: a capture cycle always returns normally, a playback
cycle always returns normally even when the underlying render throws — the
failure is caught, logged, and the frame skipped with the state unchanged —
both cycles preserve well-formedness, and a capacity below 2 is rejected with
a logged error, keeping the prior configuration. -/
theorem claim9_no_throw (fs : FrameSync) (video : Video) (docHidden : Bool)
    (now : Nat) (renderOk : Bool) (n : Nat) (i : Nat) (hwf : fs.WF) :
    (FrameSync.captureFrame fs video docHidden now).isOk = true ∧
    (FrameSync.drawFrame fs video now renderOk).isOk = true ∧
    (∀ fs2 logs, FrameSync.captureFrame fs video docHidden now = .ok (fs2, logs) → fs2.WF) ∧
    (∀ fs2 logs, FrameSync.drawFrame fs video now renderOk = .ok (fs2, logs) → fs2.WF) ∧
    (fs.active = true → video.paused = false →
      fs.findBestFrameToShow ((now : Int) - (fs.frameDelayMs : Int)) = (i : Int) →
      (i : Int) ≠ fs.lastDrawnFrameIndex →
      0 < (fs.buffer.getD i default).width →
      0 < (fs.buffer.getD i default).height →
      FrameSync.drawFrame fs video now false = .ok (fs, [LogEvent.error drawErrorMsg])) ∧
    (n < 2 → FrameSync.SetMaxBuffer fs video n
      = (fs, [LogEvent.error "maxBuffer should be at least 2"])) := by
  refine ⟨captureFrame_isOk fs video docHidden now hwf,
          drawFrame_isOk fs video now renderOk,
          fun fs2 logs h => captureFrame_WF fs video docHidden now hwf fs2 logs h,
          fun fs2 logs h => drawFrame_WF fs video now renderOk hwf fs2 logs h,
          ?_, SetMaxBuffer_reject fs video n⟩
  intro hact hp hbest hlast hw hh
  have h := drawFrame_renders fs video now false i hact hp hbest hlast hw hh
  simpa using h

/-- Witness for claim C9 at concrete inputs: on `c7session` the capture cycle
returns normally, and at `now = 150` (target 140, best slot 1) a failing
render is caught: the cycle returns the unchanged session plus the error
log. -/
theorem claim9_no_throw_witness :
    (FrameSync.captureFrame c7session demoVideo false 150).isOk = true ∧
    FrameSync.drawFrame c7session demoVideo 150 false
      = .ok (c7session, [LogEvent.error drawErrorMsg]) := by
  obtain ⟨h1, -, -, -, h5, -⟩ :=
    claim9_no_throw c7session demoVideo false 150 false 1 1 ⟨by decide, by decide⟩
  exact ⟨h1, h5 (by decide) (by decide) (by decide) (by decide) (by decide) (by decide)⟩

/-- Claim C10: `Deactivate()` clears only the active flag, the overlay canvas,
the geometry watcher and the page's registry link; buffer contents,
`frameCount`, `lastDrawnFrameIndex`, `frameDelayMs` and `maxBuffer` are all
left unchanged, and the controller's deactivation path (delay 0) removes the
registry link. -/
theorem claim10_deactivate_frame (fs : FrameSync) (pv : PageVideo) (p : Bool) :
    fs.Deactivate.active = false ∧
    fs.Deactivate.canvas = none ∧
    fs.Deactivate.hasResizeObserver = false ∧
    fs.Deactivate.buffer = fs.buffer ∧
    fs.Deactivate.frameCount = fs.frameCount ∧
    fs.Deactivate.lastDrawnFrameIndex = fs.lastDrawnFrameIndex ∧
    fs.Deactivate.frameDelayMs = fs.frameDelayMs ∧
    fs.Deactivate.maxBuffer = fs.maxBuffer ∧
    (pv.Deactivate).frameSyncObj = none ∧
    (pv.Deactivate).video = pv.video ∧
    (updateSyncForVideo 0 p pv).frameSyncObj = none := by
  refine ⟨rfl, rfl, rfl, rfl, rfl, rfl, rfl, rfl, rfl, rfl, ?_⟩
  unfold updateSyncForVideo
  rw [if_neg (by simp)]
  cases hpv : pv.frameSyncObj with
  | none => exact hpv
  | some a => rfl
